import Mathlib

/-!
Verification of the UPS export splitter (`ups_run.py` / `ups_utils.py`).

The pipeline is embedded shallowly:
* a parsed due date is an `Option Int` (absolute day number; `none` models a
  missing or unparseable cell, i.e. pandas `NaT`);
* `today` is an `Int` day number, so `(due - today).dt.days` is `Option.map`
  subtraction;
* a data frame is a `List Record`; pandas boolean-mask filtering is
  `List.filter`;
* the `pd.Categorical(..., categories=logical_order)` recast sends any value
  outside the five listed buckets to `none` (pandas `NaN`).

Strings are modelled over their character lists; Python's `str.strip` /
`re.sub` are given explicit recursive definitions (`pyStrip`, `collapseWS`,
`List.filter isAllowed`) over the ASCII whitespace class.
-/

namespace UPS

/-- Python whitespace class (ASCII part of `\s` and `str.strip`). -/
def pyIsSpace (c : Char) : Bool :=
  c = ' ' || c = '\t' || c = '\n' || c = '\r' || c = '\x0b' || c = '\x0c'

/-- Python `str.strip()` on a character list: drop whitespace at both ends. -/
def pyStrip (l : List Char) : List Char :=
  ((l.dropWhile pyIsSpace).reverse.dropWhile pyIsSpace).reverse

/-- The character class `[A-Za-z0-9_-]` kept by `safe_name`'s second `re.sub`. -/
def isAllowed (c : Char) : Bool :=
  ('A' ≤ c && c ≤ 'Z') || ('a' ≤ c && c ≤ 'z') || ('0' ≤ c && c ≤ '9') ||
    c = '_' || c = '-'

/-- Helper for `collapseWS`: the `Bool` records whether we are inside a
whitespace run that has already emitted its underscore. -/
def collapseWSAux : Bool → List Char → List Char
  | _, [] => []
  | inRun, c :: rest =>
    if pyIsSpace c then
      if inRun then collapseWSAux true rest
      else '_' :: collapseWSAux true rest
    else c :: collapseWSAux false rest

/-- Python `re.sub(r"\s+", "_", s)`: each maximal whitespace run becomes one
underscore. -/
def collapseWS (l : List Char) : List Char :=
  collapseWSAux false l

/-- `ups_utils.safe_name`: trim; empty or case-insensitive "nan" becomes
"UNASSIGNED"; collapse whitespace runs to `_`; drop characters outside
`[A-Za-z0-9_-]`; an empty final result becomes "UNASSIGNED". -/
def safe_name (x : String) : String :=
  if pyStrip x.toList = [] ∨
      (pyStrip x.toList).map Char.toLower = "nan".toList then "UNASSIGNED"
  else if (collapseWS (pyStrip x.toList)).filter isAllowed = [] then
    "UNASSIGNED"
  else String.mk ((collapseWS (pyStrip x.toList)).filter isAllowed)

/-- A string that `safe_name` sends to "UNASSIGNED" by the case-insensitive
"nan" test. -/
def isNanLike (s : String) : Bool :=
  s.toList.map Char.toLower = "nan".toList

/-- The urgency buckets of the data model. `M0_3` prints as `0_3_MONTHS`,
`M3_6` as `3_6_MONTHS`, `M6_12` as `6_12_MONTHS`, `M12_PLUS` as
`12_PLUS_MONTHS`. -/
inductive Bucket where
  | M0_3
  | M3_6
  | M6_12
  | M12_PLUS
  | OVERDUE
  | NO_DATE
deriving DecidableEq, Repr

/-- Modelled from the spec: the simple day-threshold `bucket(days)` function.
`ups_run.py` imports `bucket` from `ups_utils`, but the provided
`ups_utils.py` source only contains the fiscal-year variant `bucket_due`;
the spec fixes the thresholds of the day-threshold scheme used by the main
entry point, which is modelled here. `none` is a missing days value (pandas
`NaN` from a `NaT` date). -/
def bucket : Option Int → Bucket
  | none => Bucket.NO_DATE
  | some d =>
    if d < 0 then Bucket.OVERDUE
    else if d ≤ 90 then Bucket.M0_3
    else if d ≤ 180 then Bucket.M3_6
    else if d ≤ 365 then Bucket.M6_12
    else Bucket.M12_PLUS

/-- One row of the loaded table after column resolution. Optional columns
that may be absent from the sheet are still fields here; `OptCols` below
records which of them exist. Cell values are `Option` (`none` = pandas
missing value); dates are parsed day numbers. -/
structure Record where
  contact : Option String
  location : String
  ip : Option String
  mac : Option String
  unit_serial : Option String
  unit_model : Option String
  battery_type : Option String
  battery_due : Option Int
  unit_due : Option Int
deriving DecidableEq

/-- `df["battery_days"] = (df[battery_due_col] - today).dt.days`. -/
def battery_days (today : Int) (r : Record) : Option Int :=
  r.battery_due.map (fun d => d - today)

/-- `df["unit_days"] = (df[unit_due_col] - today).dt.days`. -/
def unit_days (today : Int) (r : Record) : Option Int :=
  r.unit_due.map (fun d => d - today)

/-- `df["battery_bucket"] = df["battery_days"].apply(bucket)`. -/
def battery_bucket (today : Int) (r : Record) : Bucket :=
  bucket (battery_days today r)

/-- `df["unit_bucket"] = df["unit_days"].apply(bucket)`. -/
def unit_bucket (today : Int) (r : Record) : Bucket :=
  bucket (unit_days today r)

/-- The fixed `logical_order` list of `ups_run.py` (`NO_DATE` is not in it). -/
def logical_order : List Bucket :=
  [Bucket.M0_3, Bucket.M3_6, Bucket.M6_12, Bucket.M12_PLUS, Bucket.OVERDUE]

/-- The `pd.Categorical(col, categories=logical_order)` recast: a bucket kept
by the categories stays, anything else (only `NO_DATE`) becomes `none`
(pandas `NaN`). -/
def catBucket (b : Bucket) : Option Bucket :=
  if b ∈ logical_order then some b else none

/-- `both_dates_present = df[battery_due_col].notna() & df[unit_due_col].notna()`. -/
def both_dates_present (r : Record) : Bool :=
  r.battery_due.isSome && r.unit_due.isSome

/-- `within_year = (df[unit_due_col] - df[battery_due_col]).abs().dt.days <= 365`;
a comparison against pandas `NaN` (either date missing) is `False`. -/
def within_year (r : Record) : Bool :=
  match r.unit_due, r.battery_due with
  | some u, some b => (u - b).natAbs ≤ 365
  | _, _ => false

/-- Rule 1 of `ups_run.py`: prefer the unit when the two dates are close. -/
def prefer_unit_due_to_proximity (r : Record) : Bool :=
  both_dates_present r && within_year r

/-- `series < 0` on an optional integer: pandas yields `False` on `NaN`. -/
def optLtZero : Option Int → Bool
  | none => false
  | some d => decide (d < 0)

/-- Rule 2 of `ups_run.py`: `(df["battery_days"] < 0) & (df["unit_days"] < 0)`. -/
def both_overdue (today : Int) (r : Record) : Bool :=
  optLtZero (battery_days today r) && optLtZero (unit_days today r)

/-- `df["suppress_battery"] = prefer_unit_due_to_proximity | both_overdue`. -/
def suppress_battery (today : Int) (r : Record) : Bool :=
  prefer_unit_due_to_proximity r || both_overdue today r

/-- The grouping key after `df[contact_col].fillna("UNASSIGNED")`: a missing
contact becomes "UNASSIGNED", any present string (blank or not) is kept. -/
def contactKey (r : Record) : String :=
  r.contact.getD "UNASSIGNED"

/-- `df_battery_effective`: drop suppressed rows, then rows with no battery
due date (lines 138-139 of `ups_run.py`). -/
def df_battery_effective (today : Int) (rows : List Record) : List Record :=
  (rows.filter (fun r => !suppress_battery today r)).filter
    (fun r => r.battery_due.isSome)

/-- The rows written to `by_contact/<c>/batteries/<b>.csv`: the battery
effective rows of contact `c` whose (categorical) battery bucket is `b`. -/
def batteryCSV (today : Int) (rows : List Record) (c : String) (b : Bucket) :
    List Record :=
  (df_battery_effective today rows).filter
    (fun r => decide (contactKey r = c) &&
      decide (catBucket (battery_bucket today r) = some b))

/-- The rows written to `by_contact/<c>/units/<b>.csv`: all rows of contact
`c` whose (categorical) unit bucket is `b` (suppression plays no part). -/
def unitCSV (today : Int) (rows : List Record) (c : String) (b : Bucket) :
    List Record :=
  rows.filter
    (fun r => decide (contactKey r = c) &&
      decide (catBucket (unit_bucket today r) = some b))

/-- The battery bucket counts of the summary:
`df_battery_effective["battery_bucket"].value_counts(dropna=True)` at
category `b`. -/
def batteryBucketCount (today : Int) (rows : List Record) (b : Bucket) : Nat :=
  ((df_battery_effective today rows).filter
    (fun r => decide (catBucket (battery_bucket today r) = some b))).length

/-- The unit bucket counts of the summary:
`df["unit_bucket"].value_counts(dropna=True)` at category `b`. -/
def unitBucketCount (today : Int) (rows : List Record) (b : Bucket) : Nat :=
  (rows.filter
    (fun r => decide (catBucket (unit_bucket today r) = some b))).length

/-- C1. The bucket classification is total with the spec's thresholds, and
the pipeline's bucket columns are this function applied to `battery_days`
and `unit_days`. -/
theorem C1_bucket_thresholds :
    bucket none = Bucket.NO_DATE ∧
    (∀ d : Int, d < 0 → bucket (some d) = Bucket.OVERDUE) ∧
    (∀ d : Int, 0 ≤ d → d ≤ 90 → bucket (some d) = Bucket.M0_3) ∧
    (∀ d : Int, 91 ≤ d → d ≤ 180 → bucket (some d) = Bucket.M3_6) ∧
    (∀ d : Int, 181 ≤ d → d ≤ 365 → bucket (some d) = Bucket.M6_12) ∧
    (∀ d : Int, 365 < d → bucket (some d) = Bucket.M12_PLUS) ∧
    (∀ today : Int, ∀ r : Record,
      battery_bucket today r = bucket (battery_days today r) ∧
      unit_bucket today r = bucket (unit_days today r)) := by
  refine ⟨rfl, ?_, ?_, ?_, ?_, ?_, fun today r => ⟨rfl, rfl⟩⟩
  · intro d h
    simp only [bucket]
    rw [if_pos h]
  · intro d h0 h1
    simp only [bucket]
    rw [if_neg (by omega), if_pos (by omega)]
  · intro d h0 h1
    simp only [bucket]
    rw [if_neg (by omega), if_neg (by omega), if_pos (by omega)]
  · intro d h0 h1
    simp only [bucket]
    rw [if_neg (by omega), if_neg (by omega), if_neg (by omega),
      if_pos (by omega)]
  · intro d h
    simp only [bucket]
    rw [if_neg (by omega), if_neg (by omega), if_neg (by omega),
      if_neg (by omega)]

/-- C1 witness: the thresholds evaluated at concrete day counts. -/
theorem C1_bucket_thresholds_witness :
    bucket (some (-5)) = Bucket.OVERDUE ∧
    bucket (some 45) = Bucket.M0_3 ∧
    bucket (some 120) = Bucket.M3_6 ∧
    bucket (some 300) = Bucket.M6_12 ∧
    bucket (some 400) = Bucket.M12_PLUS :=
  ⟨C1_bucket_thresholds.2.1 (-5) (by decide),
   C1_bucket_thresholds.2.2.1 45 (by decide) (by decide),
   C1_bucket_thresholds.2.2.2.1 120 (by decide) (by decide),
   C1_bucket_thresholds.2.2.2.2.1 300 (by decide) (by decide),
   C1_bucket_thresholds.2.2.2.2.2.1 400 (by decide)⟩

/-- C2. `suppress_battery` holds exactly when the proximity rule (both dates
present and at most 365 days apart) or the both-overdue rule (both day
counts present and negative) fires. -/
theorem C2_suppress_battery_iff (today : Int) (r : Record) :
    suppress_battery today r = true ↔
      (∃ b u, r.battery_due = some b ∧ r.unit_due = some u ∧
        (u - b).natAbs ≤ 365) ∨
      (∃ bd ud, battery_days today r = some bd ∧ unit_days today r = some ud ∧
        bd < 0 ∧ ud < 0) := by
  rcases r with ⟨ct, loc, ip, mac, us, um, bt, bdue, udue⟩
  cases bdue <;> cases udue <;>
    simp [suppress_battery, prefer_unit_due_to_proximity, both_dates_present,
      within_year, both_overdue, optLtZero, battery_days, unit_days]

/-- Buckets of present day counts are never `NO_DATE`, hence always among
the five categories of `logical_order`. -/
theorem bucket_some_mem (d : Int) : bucket (some d) ∈ logical_order := by
  simp only [bucket]
  split_ifs <;> simp [logical_order]

/-- `catBucket` keeps a bucket that is among the categories. -/
theorem catBucket_of_mem {b : Bucket} (h : b ∈ logical_order) :
    catBucket b = some b := by
  simp [catBucket, h]

/-- `catBucket` only ever returns categories of `logical_order`. -/
theorem catBucket_eq_some_mem {b b' : Bucket} (h : catBucket b = some b') :
    b' ∈ logical_order := by
  unfold catBucket at h
  split at h
  · cases h
    assumption
  · cases h

/-- The categorical unit bucket is present exactly when the unit due date
is. -/
theorem catBucket_unit_isSome (today : Int) (r : Record) :
    (catBucket (unit_bucket today r)).isSome = r.unit_due.isSome := by
  cases hu : r.unit_due with
  | none =>
    simp [unit_bucket, unit_days, hu, bucket, catBucket, logical_order]
  | some u =>
    simp [unit_bucket, unit_days, hu,
      catBucket_of_mem (bucket_some_mem (u - today))]

/-- The categorical battery bucket is present exactly when the battery due
date is. -/
theorem catBucket_battery_isSome (today : Int) (r : Record) :
    (catBucket (battery_bucket today r)).isSome = r.battery_due.isSome := by
  cases hb : r.battery_due with
  | none =>
    simp [battery_bucket, battery_days, hb, bucket, catBucket, logical_order]
  | some b =>
    simp [battery_bucket, battery_days, hb,
      catBucket_of_mem (bucket_some_mem (b - today))]

/-- A record with no battery due date never survives the
`df_battery_effective` filters. -/
theorem not_mem_battery_effective_of_no_date {today : Int} {r : Record}
    (h : r.battery_due = none) (rows : List Record) :
    r ∉ df_battery_effective today rows := by
  intro hmem
  have h2 := (List.mem_filter.mp hmem).2
  rw [h] at h2
  cases h2

/-- Prepending a record with no battery due date leaves
`df_battery_effective` unchanged. -/
theorem battery_effective_cons_no_date {today : Int} {r : Record}
    (h : r.battery_due = none) (rows : List Record) :
    df_battery_effective today (r :: rows) = df_battery_effective today rows := by
  simp only [df_battery_effective, List.filter_cons]
  cases hs : suppress_battery today r <;> simp [h]

/-- Prepending a suppressed record leaves `df_battery_effective`
unchanged. -/
theorem battery_effective_cons_suppressed {today : Int} {r : Record}
    (h : suppress_battery today r = true) (rows : List Record) :
    df_battery_effective today (r :: rows) = df_battery_effective today rows := by
  simp [df_battery_effective, List.filter_cons, h]

/-- A suppressed record never survives the `df_battery_effective`
filters. -/
theorem not_mem_battery_effective_of_suppressed {today : Int} {r : Record}
    (h : suppress_battery today r = true) (rows : List Record) :
    r ∉ df_battery_effective today rows := by
  intro hmem
  have h1 := (List.mem_filter.mp (List.mem_filter.mp hmem).1).2
  rw [h] at h1
  cases h1

/-- A suppressed record has a present unit due date: both rules need it. -/
theorem unit_due_isSome_of_suppressed {today : Int} {r : Record}
    (h : suppress_battery today r = true) : r.unit_due.isSome := by
  cases hu : r.unit_due with
  | none =>
    rw [suppress_battery, prefer_unit_due_to_proximity, both_dates_present,
      within_year, both_overdue] at h
    simp [hu, unit_days, optLtZero] at h
  | some u => rfl

/-- C3. A record with a missing (or unparseable) battery due date gets
battery bucket `NO_DATE`, never enters the battery-effective dataset, and
contributes to no battery CSV and no battery bucket count. -/
theorem C3_no_battery_date (today : Int) (r : Record)
    (h : r.battery_due = none) :
    battery_bucket today r = Bucket.NO_DATE ∧
    (∀ rows : List Record, r ∉ df_battery_effective today rows) ∧
    (∀ rows c b, batteryCSV today (r :: rows) c b = batteryCSV today rows c b) ∧
    (∀ rows b,
      batteryBucketCount today (r :: rows) b = batteryBucketCount today rows b) := by
  refine ⟨?_, fun rows => not_mem_battery_effective_of_no_date h rows,
    fun rows c b => ?_, fun rows b => ?_⟩
  · simp [battery_bucket, battery_days, h, bucket]
  · simp only [batteryCSV, battery_effective_cons_no_date h rows]
  · simp only [batteryBucketCount, battery_effective_cons_no_date h rows]

/-- Concrete record with no dates and no contact, used to instantiate the
no-battery-date theorems. -/
def rC3 : Record :=
  ⟨none, "", none, none, none, none, none, none, none⟩

/-- C3 witness: the no-battery-date theorem evaluated on `rC3`. -/
theorem C3_no_battery_date_witness :
    battery_bucket 0 rC3 = Bucket.NO_DATE ∧
    rC3 ∉ df_battery_effective 0 [rC3] ∧
    batteryCSV 0 (rC3 :: []) "UNASSIGNED" Bucket.OVERDUE =
      batteryCSV 0 [] "UNASSIGNED" Bucket.OVERDUE :=
  ⟨(C3_no_battery_date 0 rC3 rfl).1,
   (C3_no_battery_date 0 rC3 rfl).2.1 [rC3],
   (C3_no_battery_date 0 rC3 rfl).2.2.1 [] "UNASSIGNED" Bucket.OVERDUE⟩

/-- C4. A suppressed record appears in no battery CSV and no battery bucket
count; it still lands in the unit CSV of its contact and one of the five
unit buckets, and increments that unit bucket count. -/
theorem C4_suppressed_battery (today : Int) (r : Record)
    (h : suppress_battery today r = true) :
    (∀ rows : List Record, r ∉ df_battery_effective today rows) ∧
    (∀ rows c b, batteryCSV today (r :: rows) c b = batteryCSV today rows c b) ∧
    (∀ rows b,
      batteryBucketCount today (r :: rows) b = batteryBucketCount today rows b) ∧
    (∃ b, b ∈ logical_order ∧ catBucket (unit_bucket today r) = some b ∧
      (∀ rows, r ∈ rows → r ∈ unitCSV today rows (contactKey r) b) ∧
      (∀ rows, unitBucketCount today (r :: rows) b =
        unitBucketCount today rows b + 1)) := by
  refine ⟨fun rows => not_mem_battery_effective_of_suppressed h rows,
    fun rows c b => ?_, fun rows b => ?_, ?_⟩
  · simp only [batteryCSV, battery_effective_cons_suppressed h rows]
  · simp only [batteryBucketCount, battery_effective_cons_suppressed h rows]
  · have hu := unit_due_isSome_of_suppressed h
    obtain ⟨u, hu⟩ := Option.isSome_iff_exists.mp hu
    have hmem : unit_bucket today r ∈ logical_order := by
      simpa [unit_bucket, unit_days, hu] using bucket_some_mem (u - today)
    refine ⟨unit_bucket today r, hmem, catBucket_of_mem hmem, ?_, ?_⟩
    · intro rows hr
      refine List.mem_filter.mpr ⟨hr, ?_⟩
      simp [catBucket_of_mem hmem]
    · intro rows
      simp [unitBucketCount, List.filter_cons, catBucket_of_mem hmem]

/-- Concrete suppressed record: both due dates present and 10 days apart,
so the proximity rule fires. -/
def rC4 : Record :=
  ⟨none, "", none, none, none, none, none, some 10, some 20⟩

/-- C4 witness: the suppressed-record theorem evaluated on `rC4`. -/
theorem C4_suppressed_battery_witness :
    suppress_battery 0 rC4 = true ∧
    rC4 ∉ df_battery_effective 0 [rC4] ∧
    batteryCSV 0 (rC4 :: []) "UNASSIGNED" Bucket.M0_3 =
      batteryCSV 0 [] "UNASSIGNED" Bucket.M0_3 :=
  ⟨by decide,
   (C4_suppressed_battery 0 rC4 (by decide)).1 [rC4],
   (C4_suppressed_battery 0 rC4 (by decide)).2.1 [] "UNASSIGNED" Bucket.M0_3⟩

/-- `ups_utils.not_blank`: the cell is non-missing and its string form is
non-empty after trimming. -/
def not_blank : Option String → Bool
  | none => false
  | some s => decide (pyStrip s.toList ≠ [])

/-- Which of the five optional identifier columns `find_col` resolved in the
input sheet (the `if c:` checks of `ups_run.py`). -/
structure OptCols where
  ip : Bool
  mac : Bool
  unit_serial : Bool
  unit_model : Bool
  battery_type : Bool
deriving DecidableEq

/-- The `identifier_masks` list of `ups_run.py`: one `not_blank` mask per
resolved column, in the loop's order. -/
def identifier_masks (cols : OptCols) (r : Record) : List Bool :=
  (if cols.ip then [not_blank r.ip] else []) ++
  (if cols.mac then [not_blank r.mac] else []) ++
  (if cols.unit_serial then [not_blank r.unit_serial] else []) ++
  (if cols.unit_model then [not_blank r.unit_model] else []) ++
  (if cols.battery_type then [not_blank r.battery_type] else [])

/-- `has_identifier`: the OR-fold of the masks, or `True` for every row when
no identifier column exists. -/
def has_identifier (cols : OptCols) (r : Record) : Bool :=
  match identifier_masks cols r with
  | [] => true
  | m :: ms => ms.foldl (· || ·) m

/-- `df = df[has_identifier]`: the row filter. -/
def filtered_rows (cols : OptCols) (rows : List Record) : List Record :=
  rows.filter (has_identifier cols)

/-- C5. A row passes the filter iff some resolved identifier column is
non-blank in it, or no identifier column was resolved at all; retained rows
are exactly the rows satisfying `has_identifier`. -/
theorem C5_row_filter (cols : OptCols) (r : Record) :
    (has_identifier cols r = true ↔
      ((cols.ip = true ∧ not_blank r.ip = true) ∨
       (cols.mac = true ∧ not_blank r.mac = true) ∨
       (cols.unit_serial = true ∧ not_blank r.unit_serial = true) ∨
       (cols.unit_model = true ∧ not_blank r.unit_model = true) ∨
       (cols.battery_type = true ∧ not_blank r.battery_type = true) ∨
       (cols.ip = false ∧ cols.mac = false ∧ cols.unit_serial = false ∧
        cols.unit_model = false ∧ cols.battery_type = false))) ∧
    (∀ rows, r ∈ filtered_rows cols rows ↔
      r ∈ rows ∧ has_identifier cols r = true) := by
  constructor
  · rcases cols with ⟨i, m, s, mo, bt⟩
    cases i <;> cases m <;> cases s <;> cases mo <;> cases bt <;>
      simp [has_identifier, identifier_masks, List.foldl,
        Bool.or_eq_true] <;> tauto
  · intro rows
    exact List.mem_filter

/-- C10. A record with a missing (or unparseable) unit due date has no
categorical unit bucket; it appears in no unit CSV of any of the five
buckets, and prepending it changes no unit CSV. -/
theorem C10_no_unit_date (today : Int) (r : Record)
    (h : r.unit_due = none) :
    catBucket (unit_bucket today r) = none ∧
    (∀ b ∈ logical_order, ∀ rows c, r ∉ unitCSV today rows c b) ∧
    (∀ rows c b, unitCSV today (r :: rows) c b = unitCSV today rows c b) := by
  have hcat : catBucket (unit_bucket today r) = none := by
    simp [unit_bucket, unit_days, h, bucket, catBucket, logical_order]
  refine ⟨hcat, ?_, ?_⟩
  · intro b _ rows c hmem
    have h2 := (List.mem_filter.mp hmem).2
    simp [hcat] at h2
  · intro rows c b
    simp [unitCSV, List.filter_cons, hcat]

/-- Concrete record with a battery date but no unit date. -/
def rC10 : Record :=
  ⟨none, "", none, none, none, none, none, some 5, none⟩

/-- C10 witness: the no-unit-date theorem evaluated on `rC10`. -/
theorem C10_no_unit_date_witness :
    catBucket (unit_bucket 0 rC10) = none ∧
    rC10 ∉ unitCSV 0 [rC10] "UNASSIGNED" Bucket.M0_3 :=
  ⟨(C10_no_unit_date 0 rC10 rfl).1,
   (C10_no_unit_date 0 rC10 rfl).2.1 Bucket.M0_3 (by decide) [rC10] "UNASSIGNED"⟩

/-- Adding one hit at a category `b0` of `logical_order` raises the total
over all five categories by one. -/
theorem sum_count_cons (n : Bucket → Nat) (b0 : Bucket)
    (h : b0 ∈ logical_order) :
    (logical_order.map fun b => if b0 = b then n b + 1 else n b).sum
      = (logical_order.map n).sum + 1 := by
  cases b0 <;> simp [logical_order] at h ⊢ <;> omega

/-- Partition lemma: summing, over the five categories, the rows whose
optional category is that bucket counts exactly the rows whose category is
present. -/
theorem sum_filter_buckets (p : Record → Bool) (f : Record → Option Bucket)
    (hf : ∀ r b, f r = some b → b ∈ logical_order) (rows : List Record) :
    (logical_order.map fun b =>
      (rows.filter fun r => p r && decide (f r = some b)).length).sum
      = (rows.filter fun r => p r && (f r).isSome).length := by
  induction rows with
  | nil => simp
  | cons r rows ih =>
    cases hp : p r with
    | false => simpa [List.filter_cons, hp] using ih
    | true =>
      cases hfr : f r with
      | none => simpa [List.filter_cons, hp, hfr] using ih
      | some b0 =>
        have hb0 := hf r b0 hfr
        have key : ∀ b : Bucket,
            ((r :: rows).filter fun x => p x && decide (f x = some b)).length
              = if b0 = b then
                  (rows.filter fun x => p x && decide (f x = some b)).length + 1
                else (rows.filter fun x => p x && decide (f x = some b)).length := by
          intro b
          by_cases hb : b0 = b
          · subst hb
            simp [List.filter_cons, hp, hfr]
          · simp [List.filter_cons, hp, hfr, hb]
        simp only [key]
        rw [sum_count_cons _ b0 hb0, ih]
        simp [List.filter_cons, hp, hfr]

/-- Total number of rows over the battery bucket CSVs of contact `c`. -/
def batteryCSVTotal (today : Int) (rows : List Record) (c : String) : Nat :=
  (logical_order.map fun b => (batteryCSV today rows c b).length).sum

/-- Total number of rows over the unit bucket CSVs of contact `c`. -/
def unitCSVTotal (today : Int) (rows : List Record) (c : String) : Nat :=
  (logical_order.map fun b => (unitCSV today rows c b).length).sum

/-- Number of rows of contact `c` in a dataset. -/
def contactRowCount (rows : List Record) (c : String) : Nat :=
  (rows.filter fun r => decide (contactKey r = c)).length

/-- Number of battery-effective rows of contact `c`. -/
def batteryEffectiveContactCount (today : Int) (rows : List Record)
    (c : String) : Nat :=
  contactRowCount (df_battery_effective today rows) c

/-- Concrete row for contact "Alice" with no unit due date: it lands in no
unit bucket CSV, so the unit CSV totals miss it. -/
def rC6 : Record :=
  ⟨some "Alice", "", none, none, none, none, none, some 10, none⟩

/-- C6 counterexample: for contact "Alice" with the single row `rC6`, the
unit CSV totals sum to 0 while the full row count is 1, refuting the
claimed equality with the full (unfiltered-by-suppression) row count. -/
theorem C6_counterexample :
    ¬ (unitCSVTotal 0 [rC6] "Alice" = contactRowCount [rC6] "Alice") := by
  decide

/-- C6 (amended). Per contact, the battery CSV totals equal the contact's
battery-effective row count, and the unit CSV totals equal the contact's
count of rows with a present unit due date (not the full row count). -/
theorem C6_bucket_csv_sums (today : Int) (rows : List Record) (c : String) :
    batteryCSVTotal today rows c = batteryEffectiveContactCount today rows c ∧
    unitCSVTotal today rows c =
      (rows.filter fun r =>
        decide (contactKey r = c) && r.unit_due.isSome).length := by
  constructor
  · rw [batteryCSVTotal]
    simp only [batteryCSV]
    rw [sum_filter_buckets (fun r => decide (contactKey r = c))
      (fun r => catBucket (battery_bucket today r))
      (fun r b h => catBucket_eq_some_mem h) (df_battery_effective today rows)]
    rw [batteryEffectiveContactCount, contactRowCount]
    apply congrArg List.length
    apply List.filter_congr
    intro r hr
    have hdue : r.battery_due.isSome = true := (List.mem_filter.mp hr).2
    rw [catBucket_battery_isSome, hdue, Bool.and_true]
  · rw [unitCSVTotal]
    simp only [unitCSV]
    rw [sum_filter_buckets (fun r => decide (contactKey r = c))
      (fun r => catBucket (unit_bucket today r))
      (fun r b h => catBucket_eq_some_mem h) rows]
    apply congrArg List.length
    apply List.filter_congr
    intro r hr
    rw [catBucket_unit_isSome]

/-- Run-structured view of `re.sub(r"\s+", "_", s)`, written the way the
spec words it: each maximal whitespace run is replaced by one underscore,
consuming the whole run at once. -/
def collapseRuns : List Char → List Char
  | [] => []
  | c :: rest =>
    if pyIsSpace c then '_' :: collapseRuns (rest.dropWhile pyIsSpace)
    else c :: collapseRuns rest
termination_by l => l.length
decreasing_by
  all_goals simp_wf
  all_goals have := List.Sublist.length_le (List.dropWhile_sublist (l := rest) pyIsSpace)
  all_goals omega

/-- The sanitization pipeline in the words of the spec: trim, collapse each
whitespace run to a single underscore, strip every character outside
`[A-Za-z0-9_-]`, and map an empty result or a case-insensitive "nan" to
"UNASSIGNED". -/
def safeNameSpec (x : String) : String :=
  if pyStrip x.toList = [] ∨
      (pyStrip x.toList).map Char.toLower = "nan".toList then "UNASSIGNED"
  else if (collapseRuns (pyStrip x.toList)).filter isAllowed = [] then
    "UNASSIGNED"
  else String.mk ((collapseRuns (pyStrip x.toList)).filter isAllowed)

/-- The streaming whitespace collapse agrees with the run-at-a-time one. -/
theorem collapseWSAux_eq_collapseRuns (l : List Char) :
    collapseWSAux false l = collapseRuns l ∧
    collapseWSAux true l = collapseRuns (l.dropWhile pyIsSpace) := by
  induction l with
  | nil => exact ⟨by simp [collapseWSAux, collapseRuns], by
      simp [collapseWSAux, collapseRuns, List.dropWhile]⟩
  | cons c rest ih =>
    cases hc : pyIsSpace c with
    | false =>
      refine ⟨?_, ?_⟩
      · rw [collapseRuns]
        simp [collapseWSAux, hc, ih.1]
      · rw [List.dropWhile_cons, if_neg (by simp [hc])]
        rw [collapseRuns]
        simp [collapseWSAux, hc, ih.1]
    | true =>
      refine ⟨?_, ?_⟩
      · rw [collapseRuns]
        simp [collapseWSAux, hc, ih.2]
      · rw [List.dropWhile_cons]
        simp [collapseWSAux, hc, ih.2]

/-- The character 0x27, kept out of string literals. -/
def apostrophe : Char := Char.ofNat 39

/-- The contact name of the spec example: Jane, space, O, apostrophe,
Brien. -/
def janeOBrienRaw : String :=
  String.mk (['J', 'a', 'n', 'e', ' ', 'O'] ++ [apostrophe] ++
    ['B', 'r', 'i', 'e', 'n'])

/-- C7 counterexample: the space becomes an underscore, which the character
class keeps, so the spec example "JaneOBrien" is wrong. -/
theorem C7_counterexample : safe_name janeOBrienRaw ≠ "JaneOBrien" := by
  decide

/-- C7 (amended). `safe_name` implements the described pipeline (trim,
collapse each whitespace run to a single underscore, strip characters
outside the class, empty or case-insensitive "nan" to "UNASSIGNED"), and
the example contact sanitizes to "Jane_OBrien": the apostrophe is stripped
but the space becomes a kept underscore. -/
theorem C7_safe_name_spec :
    (∀ x, safe_name x = safeNameSpec x) ∧
    safe_name janeOBrienRaw = "Jane_OBrien" := by
  refine ⟨fun x => ?_, by decide⟩
  unfold safe_name safeNameSpec collapseWS
  rw [(collapseWSAux_eq_collapseRuns (pyStrip x.toList)).1]

/-- Allowed characters are never whitespace. -/
theorem allowed_not_space {c : Char} (h : isAllowed c = true) :
    pyIsSpace c = false := by
  cases hs : pyIsSpace c
  · rfl
  · exfalso
    have hs6 : c = ' ' ∨ c = '\t' ∨ c = '\n' ∨ c = '\r' ∨ c = '\x0b' ∨
        c = '\x0c' := by
      simpa [pyIsSpace, or_assoc] using hs
    rcases hs6 with h1 | h1 | h1 | h1 | h1 | h1 <;> subst h1 <;>
      exact absurd h (by decide)

/-- `dropWhile` does nothing on a list without whitespace. -/
theorem dropWhile_nospace {l : List Char}
    (h : ∀ c ∈ l, pyIsSpace c = false) : l.dropWhile pyIsSpace = l := by
  cases l with
  | nil => rfl
  | cons c rest =>
    rw [List.dropWhile_cons]
    simp [h c (List.mem_cons_self c rest)]

/-- Trimming does nothing on a list without whitespace. -/
theorem pyStrip_nospace {l : List Char}
    (h : ∀ c ∈ l, pyIsSpace c = false) : pyStrip l = l := by
  unfold pyStrip
  rw [dropWhile_nospace h,
    dropWhile_nospace (fun c hc => h c (List.mem_reverse.mp hc)),
    List.reverse_reverse]

/-- Whitespace collapsing does nothing on a list without whitespace. -/
theorem collapseWS_nospace {l : List Char}
    (h : ∀ c ∈ l, pyIsSpace c = false) : collapseWS l = l := by
  unfold collapseWS
  induction l with
  | nil => rfl
  | cons c rest ih =>
    have hc := h c (List.mem_cons_self c rest)
    simp [collapseWSAux, hc,
      ih (fun x hx => h x (List.mem_cons_of_mem c hx))]

/-- `safe_name` always returns a non-empty string of allowed characters. -/
theorem safe_name_chars (x : String) :
    (safe_name x).toList ≠ [] ∧
    ∀ c ∈ (safe_name x).toList, isAllowed c = true := by
  unfold safe_name
  split
  · exact ⟨by decide, by decide⟩
  · split
    · exact ⟨by decide, by decide⟩
    · next h2 =>
      refine ⟨h2, fun c hc => ?_⟩
      exact (List.mem_filter.mp hc).2

/-- Re-sanitizing a non-empty all-allowed string that is not a
case-insensitive "nan" returns it unchanged. -/
theorem sanitize_fixed {s : String} (hne : s.toList ≠ [])
    (hall : ∀ c ∈ s.toList, isAllowed c = true)
    (hnan : ¬ s.toList.map Char.toLower = "nan".toList) :
    safe_name s = s := by
  have hns : ∀ c ∈ s.toList, pyIsSpace c = false :=
    fun c hc => allowed_not_space (hall c hc)
  unfold safe_name
  rw [pyStrip_nospace hns, collapseWS_nospace hns,
    List.filter_eq_self.mpr hall]
  rw [if_neg (by exact fun h => h.elim hne hnan), if_neg hne]
  cases s
  rfl

/-- C8 counterexample: sanitizing the string "nan!" yields "nan", which
re-sanitizes to "UNASSIGNED", so `safe_name` is not idempotent. -/
theorem C8_counterexample :
    ¬ safe_name (safe_name "nan!") = safe_name "nan!" := by
  decide

/-- C8 (amended). `safe_name` is idempotent on every input whose sanitized
form is not a case-insensitive "nan"; only outputs equal to "nan" up to
case (such as `safe_name` of "nan!") re-sanitize differently, to
"UNASSIGNED". -/
theorem C8_sanitize_idempotent (x : String)
    (h : isNanLike (safe_name x) = false) :
    safe_name (safe_name x) = safe_name x := by
  obtain ⟨hne, hall⟩ := safe_name_chars x
  apply sanitize_fixed hne hall
  intro hmap
  rw [isNanLike, hmap] at h
  simp at h

/-- C8 witness: idempotence applied at the concrete input "abc". -/
theorem C8_sanitize_idempotent_witness :
    isNanLike (safe_name "abc") = false ∧
    safe_name (safe_name "abc") = safe_name "abc" :=
  ⟨by decide, C8_sanitize_idempotent "abc" (by decide)⟩

/-- Record whose contact cell holds the blank string " ". -/
def rC9 : Record :=
  ⟨some " ", "", none, none, none, none, none, none, none⟩

/-- C9 counterexample: a blank (whitespace-only) but present contact keeps
its own group key " ", distinct from "UNASSIGNED", even though its folder
name sanitizes to "UNASSIGNED". -/
theorem C9_counterexample :
    contactKey rC9 ≠ "UNASSIGNED" ∧
    safe_name (contactKey rC9) = "UNASSIGNED" :=
  ⟨by decide, by decide⟩

/-- C9 (amended). Only a missing contact cell is folded into the
"UNASSIGNED" group (the `fillna`), and that group key is also the string
its folder name sanitizes to; a blank-but-present contact keeps its blank
value as group key. -/
theorem C9_missing_contact (r : Record) (h : r.contact = none) :
    contactKey r = "UNASSIGNED" ∧ safe_name (contactKey r) = "UNASSIGNED" := by
  have hk : contactKey r = "UNASSIGNED" := by simp [contactKey, h]
  exact ⟨hk, by rw [hk]; decide⟩

/-- Record with a missing contact cell. -/
def rC9m : Record :=
  ⟨none, "", none, none, none, none, none, some 3, some 4⟩

/-- C9 witness: the missing-contact theorem evaluated on `rC9m`. -/
theorem C9_missing_contact_witness :
    contactKey rC9m = "UNASSIGNED" ∧
    safe_name (contactKey rC9m) = "UNASSIGNED" :=
  C9_missing_contact rC9m rfl

end UPS
